import Mathlib

set_option maxRecDepth 8192

/-!
Verification model of the EduGen AI backend (`app.py`).

Python strings are modelled as Lean `String`s (lists of characters);
the ASCII behaviour of `str.lower`, `str.strip`, the substring test
`in`, and `str.replace` is embedded explicitly below.  The external
model transport, the base64/PDF/DOCX byte decoders, the JSON parser
and the wall clock are parameters of the embedded handlers.
-/

/-- Python whitespace (ASCII part), as used by `str.strip()`. -/
def pyIsSpace (c : Char) : Bool :=
  c == ' ' || c == '\t' || c == '\n' || c == '\x0b' || c == '\x0c' || c == '\r'

/-- ASCII lowering of a single character, as `str.lower()` does for ASCII. -/
def pyToLower (c : Char) : Char :=
  if 65 ≤ c.toNat && c.toNat ≤ 90 then Char.ofNat (c.toNat + 32) else c

/-- Boolean list-prefix test. -/
def listIsPref : List Char → List Char → Bool
  | [], _ => true
  | _ :: _, [] => false
  | a :: as, b :: bs => a == b && listIsPref as bs

/-- Boolean substring test on character lists (Python `pat in s`). -/
def containsSub (pat : List Char) : List Char → Bool
  | [] => pat.isEmpty
  | c :: rest => listIsPref pat (c :: rest) || containsSub pat rest

/-- Remove the trailing block of characters satisfying `p`. -/
def stripRight (p : Char → Bool) : List Char → List Char
  | [] => []
  | c :: rest =>
    let r := stripRight p rest
    if r.isEmpty && p c then [] else c :: r

/-- Python `str.strip()` on character lists. -/
def pyStripL (l : List Char) : List Char :=
  stripRight pyIsSpace (l.dropWhile pyIsSpace)

/-- Python `str.strip()`. -/
def pyStripS (s : String) : String := ⟨pyStripL s.data⟩

/-- Python `str.lower()` (ASCII model). -/
def pyLowerS (s : String) : String := ⟨s.data.map pyToLower⟩

/-- Python substring test `pat in s`. -/
def pyIn (pat s : String) : Bool := containsSub pat.data s.data

/-- Python `s[:n]` on strings (first `n` characters). -/
def pyTakeS (n : Nat) (s : String) : String := ⟨s.data.take n⟩

/-- Fuel-driven worker for replace-all; one unit of fuel per consumed
position, so fuel equal to the list length always suffices. -/
def replaceAllAux (pat rep : List Char) : Nat → List Char → List Char
  | 0, l => l
  | _ + 1, [] => []
  | fuel + 1, c :: rest =>
    if listIsPref pat (c :: rest) && !pat.isEmpty then
      rep ++ replaceAllAux pat rep fuel (List.drop (pat.length - 1) rest)
    else
      c :: replaceAllAux pat rep fuel rest

/-- Left-to-right, non-overlapping replace-all (Python `str.replace`). -/
def replaceAllL (pat rep l : List Char) : List Char :=
  replaceAllAux pat rep l.length l

/-- Python `s.replace(pat, rep)`. -/
def pyReplace (s pat rep : String) : String := ⟨replaceAllL pat.data rep.data s.data⟩

example : pyStripS "  a b\t " = "a b" := by decide
example : pyLowerS "YeS, 'No'" = "yes, 'no'" := by decide
example : pyIn "429" "Error 429: quota" = true := by decide
example : pyReplace "x```json\nY" "```json\n" "" = "xY" := by decide
example : pyTakeS 3 "abcdef" = "abc" := by decide

/-! ### Resilient Model Client (`get_gemini_response`, app.py lines 145-164) -/

/-- Generic failure text returned from the `else` branch of the retry loop. -/
def GENERIC_ERROR_TEXT : String :=
  "Sorry, an error occurred while processing your request."

/-- Text returned after the `for` loop (only reachable if the loop ends
without returning). -/
def BUSY_TEXT : String :=
  "The service is currently busy. Please try again in a moment."

/-- `max_retries = 5` in the source. -/
def max_retries : Nat := 5

/-- `base_delay = 1` (seconds) in the source. -/
def base_delay : ℚ := 1

/-- The rate-limit signature test: `"429" in str(e)`. -/
def contains429 (msg : String) : Bool := pyIn "429" msg

/-- One transport behaviour: for each 0-based attempt index, either a raised
exception's message (`.error`) or the reply text (`.ok`). -/
def Transport : Type := Nat → Except String String

/-- The retry loop of `get_gemini_response`, with the 0-based attempt index
`a` carried separately from the structural fuel (fuel starts at
`max_retries`, so `a = max_retries - fuel`).  Returns the reply string and
the ordered list of sleep durations (seconds): the flat 1-second pause taken
on every exception, and the jittered backoff `base_delay * 2^a + jitter a`
taken before a retry. -/
def gemLoop (t : Transport) (jitter : Nat → ℚ) : Nat → Nat → String × List ℚ
  | _, 0 => (BUSY_TEXT, [])
  | a, fuel + 1 =>
    match t a with
    | .ok r => (r, [])
    | .error e =>
      if contains429 e && decide (a < max_retries - 1) then
        let p := gemLoop t jitter (a + 1) fuel
        (p.1, 1 :: (base_delay * 2 ^ a + jitter a) :: p.2)
      else
        (GENERIC_ERROR_TEXT, [1])

/-- `get_gemini_response(prompt)`: the transport `t` stands for
`model.generate_content(prompt)` at each attempt, `jitter` for the values
drawn by `random.uniform(0, 1)`. -/
def get_gemini_response (t : Transport) (jitter : Nat → ℚ) : String × List ℚ :=
  gemLoop t jitter 0 max_retries

example :
    (get_gemini_response (fun _ => .error "got 429 again") (fun _ => 0)).1 =
      GENERIC_ERROR_TEXT := by decide
example :
    (get_gemini_response (fun i => if i == 2 then .ok "hi" else .error "429")
      (fun _ => 0)).2 = [1, 1, 1, 2] := by
  have h : contains429 "429" = true := by decide
  simp [get_gemini_response, gemLoop, max_retries, h, base_delay]
example :
    (get_gemini_response (fun _ => .error "boom") (fun _ => 0)) =
      (GENERIC_ERROR_TEXT, [1]) := by
  have h : contains429 "boom" = false := by decide
  simp [get_gemini_response, gemLoop, max_retries, h]

/-- Every result of the retry loop is either a reply the transport actually
produced at some attempt, or one of the two fixed fallback strings. -/
theorem gemLoop_result (t : Transport) (j : Nat → ℚ) :
    ∀ fuel a, (∃ i, t i = .ok (gemLoop t j a fuel).1) ∨
      (gemLoop t j a fuel).1 = GENERIC_ERROR_TEXT ∨
      (gemLoop t j a fuel).1 = BUSY_TEXT := by
  intro fuel
  induction fuel with
  | zero => intro a; right; right; rfl
  | succ n ih =>
    intro a
    rcases ht : t a with e | r
    · by_cases hc : (contains429 e && decide (a < max_retries - 1)) = true
      · have : (gemLoop t j a (n + 1)).1 = (gemLoop t j (a + 1) n).1 := by
          simp [gemLoop, ht, hc]
        rw [this]
        exact ih (a + 1)
      · right; left
        simp [gemLoop, ht, hc]
    · left
      exact ⟨a, by simp [gemLoop, ht]⟩

/-- Claim C5: for every transport behaviour (success or raised exception with
any message) and any jitter draw, `get_gemini_response` returns a string and
never propagates an exception (it is a total function into `String`); when no
transport attempt produced the returned string, the result is one of the two
fixed fallback sentences, never raw exception text. -/
theorem gemini_client_never_throws_fixed_fallbacks (t : Transport) (j : Nat → ℚ) :
    (∃ i, t i = .ok (get_gemini_response t j).1) ∨
      (get_gemini_response t j).1 = GENERIC_ERROR_TEXT ∨
      (get_gemini_response t j).1 = BUSY_TEXT :=
  gemLoop_result t j max_retries 0

/-- Claim C1 counterexample: with a transport that fails on all attempts with
a message containing "429", the client returns the generic failure text, not
the "service busy" text, and the two texts differ. -/
theorem all429_returns_generic_not_busy_counterexample :
    (get_gemini_response (fun _ => .error "429 Resource has been exhausted")
        (fun _ => 0)).1 = GENERIC_ERROR_TEXT ∧
      GENERIC_ERROR_TEXT ≠ BUSY_TEXT := by
  constructor
  · decide
  · decide

/-- Claim C1 (amended): if the transport fails on all `max_retries` attempts
and every failure message contains "429", the client returns the fixed
generic failure text (the "service busy" text is unreachable on this path),
and never raises an exception. -/
theorem gemini_all429_returns_generic_text (t : Transport) (j : Nat → ℚ)
    (h : ∀ i, i < max_retries → ∃ m, t i = .error m ∧ contains429 m = true) :
    (get_gemini_response t j).1 = GENERIC_ERROR_TEXT := by
  obtain ⟨m0, e0, c0⟩ := h 0 (by norm_num [max_retries])
  obtain ⟨m1, e1, c1⟩ := h 1 (by norm_num [max_retries])
  obtain ⟨m2, e2, c2⟩ := h 2 (by norm_num [max_retries])
  obtain ⟨m3, e3, c3⟩ := h 3 (by norm_num [max_retries])
  obtain ⟨m4, e4, c4⟩ := h 4 (by norm_num [max_retries])
  simp [get_gemini_response, gemLoop, max_retries, e0, c0, e1, c1, e2, c2,
    e3, c3, e4, c4]

/-- Witness for C1 (amended): concrete all-429 transport. -/
theorem gemini_all429_returns_generic_text_witness :
    (get_gemini_response (fun _ => .error "got HTTP 429") (fun _ => 1 / 2)).1 =
      GENERIC_ERROR_TEXT :=
  gemini_all429_returns_generic_text _ _
    (fun _ _ => ⟨"got HTTP 429", rfl, by decide⟩)

/-- Claim C9: when the transport fails with a "429"-bearing message on
attempts 1..k-1 and succeeds on attempt k (k ≤ max_retries), the client
returns the successful reply; the sleeps performed are, in order, a flat
1-second pause followed by one backoff sleep for each failed attempt, the
backoff delays being exactly `base_delay * 2^i + jitter i` (k-1 of them);
the backoff bases are non-decreasing and with jitter drawn from [0, 1] each
backoff delay lies within 1 second above its base. -/
theorem gemini_429_then_success_trace (t : Transport) (j : Nat → ℚ)
    (k : Nat) (reply : String) (hk1 : 1 ≤ k) (hk5 : k ≤ max_retries)
    (hfail : ∀ i, i < k - 1 → ∃ m, t i = .error m ∧ contains429 m = true)
    (hok : t (k - 1) = .ok reply) (hj : ∀ i, 0 ≤ j i ∧ j i ≤ 1) :
    (get_gemini_response t j).1 = reply ∧
    (get_gemini_response t j).2 =
      (List.range (k - 1)).flatMap (fun i => [(1 : ℚ), base_delay * 2 ^ i + j i]) ∧
    (∀ i₁ i₂, i₁ ≤ i₂ → base_delay * 2 ^ i₁ ≤ base_delay * 2 ^ i₂) ∧
    (∀ i, base_delay * 2 ^ i ≤ base_delay * 2 ^ i + j i ∧
      base_delay * 2 ^ i + j i ≤ base_delay * 2 ^ i + 1) := by
  have hmono : ∀ i₁ i₂ : Nat, i₁ ≤ i₂ →
      base_delay * 2 ^ i₁ ≤ base_delay * (2 : ℚ) ^ i₂ := by
    intro i₁ i₂ h
    have : (2 : ℚ) ^ i₁ ≤ 2 ^ i₂ := by
      apply pow_le_pow_right₀ (by norm_num) h
    simpa [base_delay] using this
  have hrange : ∀ i, base_delay * 2 ^ i ≤ base_delay * 2 ^ i + j i ∧
      base_delay * 2 ^ i + j i ≤ base_delay * (2 : ℚ) ^ i + 1 := by
    intro i
    constructor
    · linarith [(hj i).1]
    · linarith [(hj i).2]
  have main : (get_gemini_response t j).1 = reply ∧
      (get_gemini_response t j).2 =
        (List.range (k - 1)).flatMap
          (fun i => [(1 : ℚ), base_delay * 2 ^ i + j i]) := by
    simp only [max_retries] at hk5
    interval_cases k
    · norm_num at hok
      constructor <;> simp [get_gemini_response, gemLoop, max_retries, hok]
    · obtain ⟨m0, e0, c0⟩ := hfail 0 (by omega)
      norm_num at hok
      constructor <;>
        simp [get_gemini_response, gemLoop, max_retries, hok, e0, c0,
          List.range_succ]
    · obtain ⟨m0, e0, c0⟩ := hfail 0 (by omega)
      obtain ⟨m1, e1, c1⟩ := hfail 1 (by omega)
      norm_num at hok
      constructor <;>
        simp [get_gemini_response, gemLoop, max_retries, hok, e0, c0, e1, c1,
          List.range_succ]
    · obtain ⟨m0, e0, c0⟩ := hfail 0 (by omega)
      obtain ⟨m1, e1, c1⟩ := hfail 1 (by omega)
      obtain ⟨m2, e2, c2⟩ := hfail 2 (by omega)
      norm_num at hok
      constructor <;>
        simp [get_gemini_response, gemLoop, max_retries, hok, e0, c0, e1, c1,
          e2, c2, List.range_succ]
    · obtain ⟨m0, e0, c0⟩ := hfail 0 (by omega)
      obtain ⟨m1, e1, c1⟩ := hfail 1 (by omega)
      obtain ⟨m2, e2, c2⟩ := hfail 2 (by omega)
      obtain ⟨m3, e3, c3⟩ := hfail 3 (by omega)
      norm_num at hok
      constructor <;>
        simp [get_gemini_response, gemLoop, max_retries, hok, e0, c0, e1, c1,
          e2, c2, e3, c3, List.range_succ]
  exact ⟨main.1, main.2, hmono, hrange⟩

/-- A transport failing once with a rate-limit message, then succeeding. -/
def oneFailTransport : Transport :=
  fun i => if i = 0 then .error "HTTP 429" else .ok "pong"

/-- A jitter draw of 0 at every attempt. -/
def zeroJitter : Nat → ℚ := fun _ => 0

/-- Witness for C9: concrete run with one 429 failure then success. -/
theorem gemini_429_then_success_trace_witness :
    (get_gemini_response oneFailTransport zeroJitter).1 = "pong" ∧
    (get_gemini_response oneFailTransport zeroJitter).2 =
      (List.range 1).flatMap (fun i => [(1 : ℚ), base_delay * 2 ^ i + zeroJitter i]) ∧
    (∀ i₁ i₂, i₁ ≤ i₂ → base_delay * 2 ^ i₁ ≤ base_delay * (2 : ℚ) ^ i₂) ∧
    (∀ i, base_delay * 2 ^ i ≤ base_delay * 2 ^ i + zeroJitter i ∧
      base_delay * 2 ^ i + zeroJitter i ≤ base_delay * (2 : ℚ) ^ i + 1) :=
  gemini_429_then_success_trace oneFailTransport zeroJitter 2 "pong"
    (by norm_num) (by norm_num [max_retries])
    (fun i hi => ⟨"HTTP 429",
      by
        have h0 : i = 0 := by omega
        subst h0
        rfl,
      by decide⟩)
    rfl
    (fun i => ⟨by norm_num [zeroJitter], by norm_num [zeroJitter]⟩)

/-! ### JSON-like Python values and HTTP replies -/

/-- A Python value as produced by `request.get_json()` / `json.loads`. -/
inductive PyVal where
  | none_
  | bool_ (b : Bool)
  | int_ (n : Int)
  | str_ (s : String)
  | list_ (xs : List PyVal)
  | dict_ (kvs : List (String × PyVal))

/-- Python truthiness of a value. -/
def PyVal.truthy : PyVal → Bool
  | .none_ => false
  | .bool_ b => b
  | .int_ n => n != 0
  | .str_ s => !s.isEmpty
  | .list_ xs => !xs.isEmpty
  | .dict_ kvs => !kvs.isEmpty

/-- `d.get(k)` on a Python dict (first binding wins). -/
def pyGet (kvs : List (String × PyVal)) (k : String) : Option PyVal :=
  match kvs with
  | [] => none
  | (k', v) :: rest => if k' == k then some v else pyGet rest k

/-- Python `==` between a string and an arbitrary value: true exactly for an
equal string (no coercion between `str` and other types). -/
def pyEqStr (ca : String) : PyVal → Bool
  | .str_ s => ca == s
  | _ => false

/-- Python `ca in options` for a string `ca` and a list of values. -/
def pyStrMem (ca : String) : List PyVal → Bool
  | [] => false
  | v :: vs => pyEqStr ca v || pyStrMem ca vs

/-- An HTTP reply: status code and JSON body. -/
structure HttpReply where
  status : Nat
  body : PyVal

/-- Python truthiness of `message` (a string). -/
def truthyStr (s : String) : Bool := !s.isEmpty

/-- Python truthiness of `data.get("fileData")` / `data.get("filename")`:
false when the key is absent (None) or the string is empty. -/
def truthyOptStr : Option String → Bool
  | none => false
  | some s => !s.isEmpty

/-! ### Prompt templates (app.py lines 60-93, 206, 213, 229, 233-278) -/

/-- `TALK_MODE_PROMPT` (app.py lines 60-65). -/
def TALK_MODE_PROMPT : String :=
  "\nYou are a friendly and casual AI assistant. Your goal is to provide a very short and direct answer.\n**Strictly limit your response to 1-2 sentences maximum.**\nDo NOT use any special formatting like bolding or lists.\nDo NOT provide detailed explanations. Get straight to the point in a conversational way.\n"

/-- `RESUME_ANALYSIS_PROMPT` (app.py lines 68-83). -/
def RESUME_ANALYSIS_PROMPT : String :=
  "\nYou are an expert HR hiring manager. Analyze the following resume.\nProvide a very \"short and sweet\" analysis. Be direct and use concise language.\n\n**📄 ATS Score & Feedback:**\nGive a score out of 100 and a brief, one-sentence explanation.\n\n**👍 Strengths:**\nList 2 key strengths in a bulleted list.\n\n**👎 Weaknesses:**\nList 2 major weaknesses in a bulleted list.\n\n**💡 Recommendations:**\nProvide 2 actionable recommendations in a bulleted list.\n"

/-- `GENERAL_DOC_PROMPT.format(document_text=.., user_question=..)`
(app.py lines 85-93). -/
def general_doc_prompt (document_text user_question : String) : String :=
  "\nYou are a helpful assistant. Use the provided document context to give a short and sweet answer to the user's question. Be direct and concise.\n\n--- DOCUMENT CONTEXT ---\n" ++
    document_text ++
    "\n--- END CONTEXT ---\n\nUser's Question: " ++ user_question ++ "\n"

/-- The fixed classifier instruction (app.py line 206). -/
def CLASSIFICATION_INSTRUCTION : String :=
  "Is the following text a resume or CV? Answer with only 'yes' or 'no'.\n\n"

/-- The classification prompt: instruction followed by the first 1000
characters of the extracted text (app.py line 206). -/
def classification_prompt (text : String) : String :=
  CLASSIFICATION_INSTRUCTION ++ pyTakeS 1000 text

/-- `get_gemini_response(classification_prompt).strip().lower()` tested for
the substring "yes" (app.py lines 207-209). -/
def isResume (reply : String) : Bool := pyIn "yes" (pyLowerS (pyStripS reply))

/-- The résumé-analysis final prompt (app.py line 213). -/
def resume_final_prompt (extracted_text : String) : String :=
  RESUME_ANALYSIS_PROMPT ++ "\n\n--- RESUME CONTENT ---\n" ++ extracted_text

/-- The talk-mode final prompt (app.py line 229). -/
def talk_final_prompt (message : String) : String :=
  TALK_MODE_PROMPT ++ "\n\nUser's question: " ++ message

/-- The educational-mode prompt (app.py lines 233-278). -/
def edu_prompt (message : String) : String :=
  "You are EduGen AI 🎓, a comprehensive educational assistant for students. When explaining topics, follow these guidelines:\n\n📚 CONTENT DEPTH: Provide detailed, thorough explanations that cover:\n• Key concepts and definitions\n• Step-by-step breakdowns when applicable\n• Multiple perspectives or approaches\n• Important connections to related topics\n\n🌍 REAL-WORLD EXAMPLES: Always include:\n• Practical, everyday examples students can relate to\n• Current events or modern applications\n• Industry use cases and career connections\n• Historical context when relevant\n\n💡 CLARITY & UNDERSTANDING: Make content accessible by:\n• Using simple language with clear explanations\n• Breaking complex ideas into digestible parts\n• Providing analogies and metaphors\n• Including visual descriptions where helpful\n\n📺 EDUCATIONAL RESOURCES: When appropriate, suggest:\n• YouTube channels and specific video recommendations for visual learning\n• Educational articles and research papers for deeper reading\n• Interactive websites and tools for hands-on practice\n• Free online courses (Khan Academy, Coursera, edX) for structured learning\n• Documentaries and educational content for broader understanding\n\n🔗 RESOURCE FORMAT: Present resources as:\n📺 **YouTube Videos:**\n• [Video Title] - Channel Name\n• Search terms: 'specific keywords for finding videos'\n\n📖 **Articles & Reading:**\n• Article/website suggestions with brief descriptions\n• Search terms for finding quality articles\n\n📍 STRUCTURE: Organize responses with:\n• Clear headings using emojis (🧮 math, 🧪 science, 📖 literature, etc.)\n• Bullet points and numbered lists\n• Key takeaways highlighted with ✨\n• Practical tips marked with 💡\n• Resource recommendations marked with 🔗\n\nAlways aim for comprehensive yet understandable explanations that help students truly grasp the material, see its relevance in the real world, and provide pathways for further learning through quality educational resources.\n\nStudent's question: " ++
    message

/-! ### Text extraction (`extract_text_from_file`, app.py lines 124-143) -/

/-- `s.split(',')` on character lists. -/
def splitCommaL : List Char → List (List Char)
  | [] => [[]]
  | c :: rest =>
    match splitCommaL rest with
    | [] => [[]]
    | g :: gs => if c == ',' then [] :: g :: gs else (c :: g) :: gs

/-- `file_data.split(',')[1]`: `none` models the IndexError raised (and then
caught) when there is no comma. -/
def pySplitCommaAt1 (s : String) : Option String :=
  match splitCommaL s.data with
  | _ :: g :: _ => some ⟨g⟩
  | _ => none

/-- Python `s.endswith(suffix)`. -/
def pyEndsWith (s suffix : String) : Bool :=
  listIsPref suffix.data.reverse s.data.reverse

/-- `extract_text_from_file(file_data, filename)`.  The external pieces are
parameters: `decodeB64` models `base64.b64decode` (`none` = raised binascii
error), `pdfText` models the PyPDF2 page-text join, `docxText` the docx
paragraph join (`none` = any exception while parsing).  Returns `none`
whenever the source returns None: processing disabled, bad data URL,
decode failure, unsupported extension, or parser exception. -/
def extract_text_from_file (docEnabled : Bool)
    (decodeB64 : String → Option String)
    (pdfText docxText : String → Option String)
    (file_data filename : String) : Option String :=
  if !docEnabled then none
  else
    match pySplitCommaAt1 file_data with
    | none => none
    | some part =>
      match decodeB64 part with
      | none => none
      | some bs =>
        if pyEndsWith filename ".pdf" then pdfText bs
        else if pyEndsWith filename ".docx" then docxText bs
        else none

example :
    extract_text_from_file true (fun s => some s) (fun b => some b)
      (fun b => some b) "data:text/plain;base64,QQ==" "notes.txt" = none := rfl
example :
    extract_text_from_file true (fun s => some s) (fun _ => some "PDF TEXT")
      (fun b => some b) "data:application/pdf;base64,QQ==" "cv.pdf" =
      some "PDF TEXT" := rfl

/-! ### Chat endpoint (`chat`, app.py lines 181-289) -/

/-- Body of the extraction-failure reply (app.py line 204). -/
def COULD_NOT_READ_TEXT : String :=
  "Sorry, I could not read the content of the document."

/-- The `/api/chat` handler.  `gem` stands for `get_gemini_response` (a total
function by claim C5), `nowStr` for the formatted `datetime.now()` value,
and the three decoder parameters feed `extract_text_from_file`.  Returns the
HTTP reply together with the ordered list of prompts sent to the model. -/
def chat (docEnabled : Bool) (decodeB64 : String → Option String)
    (pdfText docxText : String → Option String) (gem : String → String)
    (nowStr : String) (message : String) (fileData filename : Option String)
    (talkMode : Bool) : HttpReply × List String :=
  if !truthyStr message && !(truthyOptStr fileData && truthyOptStr filename) then
    (⟨400, .dict_ [("error", .str_ "No message or file provided.")]⟩, [])
  else if truthyOptStr fileData && truthyOptStr filename then
    if !docEnabled then
      (⟨503, .dict_ [("error", .str_ "Document processing not available"),
        ("message", .str_ "PDF/DOCX processing is disabled on this server")]⟩, [])
    else
      match extract_text_from_file docEnabled decodeB64 pdfText docxText
          (fileData.getD "") (filename.getD "") with
      | none => (⟨200, .dict_ [("response", .str_ COULD_NOT_READ_TEXT)]⟩, [])
      | some extracted =>
        if !truthyStr extracted then
          (⟨200, .dict_ [("response", .str_ COULD_NOT_READ_TEXT)]⟩, [])
        else
          let cp := classification_prompt extracted
          let finalPrompt :=
            if isResume (gem cp) then
              if truthyStr message then general_doc_prompt extracted message
              else resume_final_prompt extracted
            else general_doc_prompt extracted message
          (⟨200, .dict_ [("response", .str_ (gem finalPrompt))]⟩, [cp, finalPrompt])
  else if pyIn "time" (pyLowerS message) || pyIn "date" (pyLowerS message) then
    (⟨200, .dict_ [("response",
      .str_ ("The current date and time is " ++ nowStr ++ "."))]⟩, [])
  else if talkMode then
    let fp := talk_final_prompt message
    (⟨200, .dict_ [("response", .str_ (gem fp))]⟩, [fp])
  else
    let fp := edu_prompt message
    (⟨200, .dict_ [("response", .str_ (gem fp))]⟩, [fp])

example :
    (chat true (fun s => some s) (fun b => some b) (fun b => some b)
      (fun _ => "resp") "Mon" "" none none false).1.status = 400 := rfl
example :
    (chat true (fun s => some s) (fun b => some b) (fun b => some b)
      (fun _ => "resp") "Mon" "what TIME is it?" none none true).2 = [] := rfl
example :
    (chat true (fun s => some s) (fun _ => some "doc body") (fun b => some b)
      (fun p => if p = classification_prompt "doc body" then "no" else "ans")
      "Mon" "" (some "d,x") (some "a.pdf") false).2 =
      [classification_prompt "doc body", general_doc_prompt "doc body" ""] := rfl

/-- A non-empty string is truthy. -/
theorem truthyStr_of_ne (s : String) (h : s ≠ "") : truthyStr s = true := by
  have he : s.isEmpty = false := by
    rcases hb : s.isEmpty
    · rfl
    · exact absurd ((String.isEmpty_iff s).mp hb) h
  simp [truthyStr, he]

/-- Claim C3 counterexample: a chat request with a file whose extraction
fails (here: unsupported ".txt" extension) is answered with HTTP 200 and a
`response` body, not HTTP 400 with an error body, and no model call is made. -/
theorem chat_extraction_failure_counterexample :
    (chat true (fun s => some s) (fun b => some b) (fun b => some b)
        (fun _ => "reply") "Mon" "analyse this" (some "data:x,QQ==")
        (some "notes.txt") false) =
      (⟨200, .dict_ [("response", .str_ COULD_NOT_READ_TEXT)]⟩, []) ∧
    (200 : Nat) ≠ 400 := ⟨rfl, by decide⟩

/-- Claim C3 (amended): whenever extraction fails (returns None, or an empty
text), the chat endpoint replies HTTP 200 with the fixed apologetic
`response` body and makes no model call. -/
theorem chat_extraction_failure_returns_200_apology
    (decodeB64 : String → Option String)
    (pdfText docxText : String → Option String) (gem : String → String)
    (nowStr message : String) (fileData filename : Option String)
    (talkMode : Bool)
    (hfd : truthyOptStr fileData = true) (hfn : truthyOptStr filename = true)
    (hext : extract_text_from_file true decodeB64 pdfText docxText
        (fileData.getD "") (filename.getD "") = none ∨
      extract_text_from_file true decodeB64 pdfText docxText
        (fileData.getD "") (filename.getD "") = some "") :
    chat true decodeB64 pdfText docxText gem nowStr message fileData filename
        talkMode =
      (⟨200, .dict_ [("response", .str_ COULD_NOT_READ_TEXT)]⟩, []) := by
  unfold chat
  rcases hext with h | h <;> simp [hfd, hfn, h, truthyStr, String.isEmpty_iff]

/-- Witness for C3 (amended): concrete failing extraction (decode error). -/
theorem chat_extraction_failure_returns_200_apology_witness :
    chat true (fun _ => none) (fun b => some b) (fun b => some b)
        (fun _ => "reply") "Mon" "" (some "nocomma") (some "cv.pdf") false =
      (⟨200, .dict_ [("response", .str_ COULD_NOT_READ_TEXT)]⟩, []) :=
  chat_extraction_failure_returns_200_apology (fun _ => none) _ _ _ _ _ _ _ _
    rfl rfl (Or.inl rfl)

/-- Claim C2 counterexample: file present, classified not-a-résumé, empty
message: the final prompt is the document-QA template with the EMPTY string
as question, which differs from the template filled with
"Summarize this document.". -/
theorem chat_nonresume_empty_message_counterexample :
    (chat true (fun s => some s) (fun _ => some "doc body") (fun b => some b)
        (fun _ => "no") "Mon" "" (some "d,x") (some "a.pdf") false).2 =
      [classification_prompt "doc body", general_doc_prompt "doc body" ""] ∧
    general_doc_prompt "doc body" "" ≠
      general_doc_prompt "doc body" "Summarize this document." := by
  refine ⟨rfl, ?_⟩
  decide

/-- Claim C2 (amended): for a chat request carrying a document classified
not-a-résumé with an empty message, the final model call uses the
document-QA template with the user-question variable equal to the empty
string — the empty message is passed downstream unchanged. -/
theorem chat_nonresume_empty_message_passes_empty_question
    (decodeB64 : String → Option String)
    (pdfText docxText : String → Option String) (gem : String → String)
    (nowStr : String) (fileData filename : Option String) (talkMode : Bool)
    (text : String)
    (hfd : truthyOptStr fileData = true) (hfn : truthyOptStr filename = true)
    (hext : extract_text_from_file true decodeB64 pdfText docxText
      (fileData.getD "") (filename.getD "") = some text)
    (htext : truthyStr text = true)
    (hcls : isResume (gem (classification_prompt text)) = false) :
    (chat true decodeB64 pdfText docxText gem nowStr "" fileData filename
        talkMode).2 =
      [classification_prompt text, general_doc_prompt text ""] ∧
    (chat true decodeB64 pdfText docxText gem nowStr "" fileData filename
        talkMode).1 =
      ⟨200, .dict_ [("response", .str_ (gem (general_doc_prompt text "")))]⟩ := by
  unfold chat
  simp [hfd, hfn, hext, htext, hcls]

/-- Witness for C2 (amended): concrete not-a-résumé document, empty message. -/
theorem chat_nonresume_empty_message_passes_empty_question_witness :
    (chat true (fun s => some s) (fun _ => some "doc body") (fun b => some b)
        (fun _ => "no") "Mon" "" (some "d,x") (some "a.pdf") true).2 =
      [classification_prompt "doc body", general_doc_prompt "doc body" ""] ∧
    (chat true (fun s => some s) (fun _ => some "doc body") (fun b => some b)
        (fun _ => "no") "Mon" "" (some "d,x") (some "a.pdf") true).1 =
      ⟨200, .dict_ [("response",
        .str_ ((fun _ => "no") (general_doc_prompt "doc body" "")))]⟩ :=
  chat_nonresume_empty_message_passes_empty_question _ _ _ _ _ _ _ _ "doc body"
    rfl rfl rfl rfl (by decide)

/-- Claim C10: a chat request without a file whose message, lower-cased,
contains "time" or "date" is answered locally with the formatted current
date-time sentence and no model call is made, regardless of talk mode. -/
theorem chat_time_date_local_reply_no_model_call (docEnabled : Bool)
    (decodeB64 : String → Option String)
    (pdfText docxText : String → Option String) (gem : String → String)
    (nowStr message : String) (talkMode : Bool)
    (h : (pyIn "time" (pyLowerS message) || pyIn "date" (pyLowerS message)) =
      true) :
    chat docEnabled decodeB64 pdfText docxText gem nowStr message none none
        talkMode =
      (⟨200, .dict_ [("response",
        .str_ ("The current date and time is " ++ nowStr ++ "."))]⟩, []) := by
  by_cases heq : message = ""
  · subst heq
    exact absurd h (by decide)
  · have hmsg : truthyStr message = true := truthyStr_of_ne message heq
    unfold chat
    simp [truthyOptStr, hmsg, h]

/-- Witness for C10: concrete message mentioning the time, talk mode on. -/
theorem chat_time_date_local_reply_no_model_call_witness :
    chat true (fun s => some s) (fun b => some b) (fun b => some b)
        (fun _ => "reply") "Monday, June 02, 2025, 10:00 AM"
        "what TIME is it?" none none true =
      (⟨200, .dict_ [("response",
        .str_ ("The current date and time is " ++
          "Monday, June 02, 2025, 10:00 AM" ++ "."))]⟩, []) :=
  chat_time_date_local_reply_no_model_call true _ _ _ _ _ "what TIME is it?" true
    (by decide)

/-! ### Classifier (claim C6): strip-invariance of the "yes" test -/

/-- A prefix of `m` is a prefix of `m ++ v`. -/
theorem listIsPref_append (pat m v : List Char)
    (h : listIsPref pat m = true) : listIsPref pat (m ++ v) = true := by
  induction pat generalizing m with
  | nil => rfl
  | cons x xs ih =>
    cases m with
    | nil => simp [listIsPref] at h
    | cons b bs =>
      simp only [listIsPref, Bool.and_eq_true] at h ⊢
      exact ⟨h.1, ih bs h.2⟩

/-- If every character of `v` satisfies `p` and no character of `pat` does,
a prefix of `m ++ v` cannot use `v`. -/
theorem listIsPref_of_append_junk (p : Char → Bool) (pat m v : List Char)
    (hv : ∀ c ∈ v, p c = true) (hpat : ∀ c ∈ pat, p c = false)
    (h : listIsPref pat (m ++ v) = true) : listIsPref pat m = true := by
  induction pat generalizing m with
  | nil => rfl
  | cons x xs ih =>
    cases m with
    | nil =>
      cases v with
      | nil => simp [listIsPref] at h
      | cons c v' =>
        simp only [List.nil_append, listIsPref, Bool.and_eq_true,
          beq_iff_eq] at h
        have hx : p x = false := hpat x (by simp)
        have hc : p c = true := hv c (by simp)
        rw [h.1] at hx
        rw [hx] at hc
        cases hc
    | cons b bs =>
      simp only [List.cons_append, listIsPref, Bool.and_eq_true] at h ⊢
      exact ⟨h.1, ih bs (fun c hc => hpat c (by simp [hc])) h.2⟩

/-- The empty pattern is a substring of anything. -/
theorem containsSub_nil (l : List Char) : containsSub [] l = true := by
  cases l <;> simp [containsSub, listIsPref, List.isEmpty]

/-- A substring of `m` is a substring of `u ++ m`. -/
theorem containsSub_append_left (pat u m : List Char)
    (h : containsSub pat m = true) : containsSub pat (u ++ m) = true := by
  induction u with
  | nil => exact h
  | cons c u' ih =>
    simp only [List.cons_append, containsSub, Bool.or_eq_true]
    exact Or.inr ih

/-- A substring of `m` is a substring of `m ++ v`. -/
theorem containsSub_append_right (pat m v : List Char)
    (h : containsSub pat m = true) : containsSub pat (m ++ v) = true := by
  induction m with
  | nil =>
    have : pat = [] := by
      cases pat with
      | nil => rfl
      | cons x xs => simp [containsSub, List.isEmpty] at h
    rw [this]
    exact containsSub_nil v
  | cons b bs ih =>
    simp only [containsSub, Bool.or_eq_true] at h
    simp only [List.cons_append, containsSub, Bool.or_eq_true]
    rcases h with h | h
    · exact Or.inl (listIsPref_append pat (b :: bs) v h)
    · exact Or.inr (ih h)

/-- A non-junk pattern is not a substring of an all-junk list. -/
theorem containsSub_allJunk (p : Char → Bool) (x : Char) (xs v : List Char)
    (hv : ∀ c ∈ v, p c = true) (hx : p x = false) :
    containsSub (x :: xs) v = false := by
  induction v with
  | nil => rfl
  | cons c v' ih =>
    simp only [containsSub, listIsPref, Bool.or_eq_false_iff,
      Bool.and_eq_false_iff]
    constructor
    · left
      have hc : p c = true := hv c (by simp)
      simp only [beq_eq_false_iff_ne, ne_eq]
      intro hxc
      rw [hxc, hc] at hx
      cases hx
    · exact ih (fun c hc => hv c (by simp [hc]))

/-- Junk on the left of `m` cannot host an occurrence of a junk-free
pattern. -/
theorem containsSub_of_junk_left (p : Char → Bool) (pat u m : List Char)
    (hu : ∀ c ∈ u, p c = true) (hpat : ∀ c ∈ pat, p c = false)
    (hne : pat ≠ []) (h : containsSub pat (u ++ m) = true) :
    containsSub pat m = true := by
  induction u with
  | nil => exact h
  | cons c u' ih =>
    simp only [List.cons_append, containsSub, Bool.or_eq_true] at h
    rcases h with h | h
    · cases pat with
      | nil => exact absurd rfl hne
      | cons x xs =>
        simp only [listIsPref, Bool.and_eq_true, beq_iff_eq] at h
        have hx : p x = false := hpat x (by simp)
        have hc : p c = true := hu c (by simp)
        rw [h.1] at hx
        rw [hx] at hc
        cases hc
    · exact ih (fun c hc => hu c (by simp [hc])) h

/-- Junk on the right of `m` cannot host an occurrence of a junk-free
pattern. -/
theorem containsSub_of_junk_right (p : Char → Bool) (pat m v : List Char)
    (hv : ∀ c ∈ v, p c = true) (hpat : ∀ c ∈ pat, p c = false)
    (hne : pat ≠ []) (h : containsSub pat (m ++ v) = true) :
    containsSub pat m = true := by
  induction m with
  | nil =>
    cases pat with
    | nil => exact absurd rfl hne
    | cons x xs =>
      rw [List.nil_append] at h
      rw [containsSub_allJunk p x xs v hv (hpat x (by simp))] at h
      cases h
  | cons b bs ih =>
    simp only [List.cons_append, containsSub, Bool.or_eq_true] at h
    simp only [containsSub, Bool.or_eq_true]
    rcases h with h | h
    · exact Or.inl (listIsPref_of_append_junk p pat (b :: bs) v hv hpat h)
    · exact Or.inr (ih h)

/-- `stripRight` only removes a trailing all-junk block. -/
theorem stripRight_decomp (p : Char → Bool) (l : List Char) :
    ∃ w, l = stripRight p l ++ w ∧ ∀ c ∈ w, p c = true := by
  induction l with
  | nil => exact ⟨[], rfl, by simp⟩
  | cons c rest ih =>
    obtain ⟨w, hw, hww⟩ := ih
    by_cases hc : ((stripRight p rest).isEmpty && p c) = true
    · simp only [Bool.and_eq_true, List.isEmpty_iff] at hc
      refine ⟨c :: rest, ?_, ?_⟩
      · simp [stripRight, hc.1, hc.2, List.isEmpty]
      · intro x hx
        rcases List.mem_cons.mp hx with h | h
        · rw [h]; exact hc.2
        · have : rest = w := by rw [hw, hc.1, List.nil_append]
          exact hww x (this ▸ h)
    · refine ⟨w, ?_, hww⟩
      have hs : stripRight p (c :: rest) = c :: stripRight p rest := by
        simp only [stripRight]
        rw [if_neg (by simpa using hc)]
      rw [hs, List.cons_append, ← hw]

/-- `str.strip()` only removes all-space blocks at the two ends. -/
theorem pyStrip_decomp (l : List Char) :
    ∃ u w, l = u ++ pyStripL l ++ w ∧ (∀ c ∈ u, pyIsSpace c = true) ∧
      (∀ c ∈ w, pyIsSpace c = true) := by
  obtain ⟨w, hw, hww⟩ := stripRight_decomp pyIsSpace (l.dropWhile pyIsSpace)
  refine ⟨l.takeWhile pyIsSpace, w, ?_, ?_, hww⟩
  · conv_lhs => rw [← List.takeWhile_append_dropWhile pyIsSpace l]
    simp only [pyStripL]
    rw [List.append_assoc, ← hw]
  · exact fun c hc => List.mem_takeWhile_imp hc

/-- ASCII lowering fixes whitespace characters. -/
theorem pyToLower_space (c : Char) (h : pyIsSpace c = true) :
    pyToLower c = c := by
  have hc : c = ' ' ∨ c = '\t' ∨ c = '\n' ∨ c = '\x0b' ∨ c = '\x0c' ∨
      c = '\r' := by
    simp only [pyIsSpace, Bool.or_eq_true, beq_iff_eq] at h
    tauto
  rcases hc with h | h | h | h | h | h <;> (rw [h]; decide)

/-- Lowering an all-space list is the identity. -/
theorem map_pyToLower_spaces (u : List Char)
    (hu : ∀ c ∈ u, pyIsSpace c = true) : u.map pyToLower = u := by
  induction u with
  | nil => rfl
  | cons c rest ih =>
    simp only [List.map_cons]
    rw [pyToLower_space c (hu c (by simp)),
      ih (fun x hx => hu x (by simp [hx]))]

/-- Stripping before lowering does not change whether "yes" occurs. -/
theorem containsSub_yes_strip_iff (l : List Char) :
    containsSub "yes".data ((pyStripL l).map pyToLower) = true ↔
      containsSub "yes".data (l.map pyToLower) = true := by
  obtain ⟨u, w, hdec, hu, hw⟩ := pyStrip_decomp l
  have hpat : ∀ c ∈ "yes".data, pyIsSpace c = false := by decide
  have hne : "yes".data ≠ [] := by decide
  have hl : l.map pyToLower = u ++ (pyStripL l).map pyToLower ++ w := by
    conv_lhs => rw [hdec]
    rw [List.map_append, List.map_append, map_pyToLower_spaces u hu,
      map_pyToLower_spaces w hw]
  constructor
  · intro h
    rw [hl, List.append_assoc]
    exact containsSub_append_left _ _ _ (containsSub_append_right _ _ _ h)
  · intro h
    rw [hl] at h
    have h1 := containsSub_of_junk_right pyIsSpace "yes".data
      (u ++ (pyStripL l).map pyToLower) w hw hpat hne h
    exact containsSub_of_junk_left pyIsSpace "yes".data u
      ((pyStripL l).map pyToLower) hu hpat hne h1

/-- Claim C6: the classifier prompt is the fixed instruction followed by at
most the first 1000 characters of the extracted text (a prefix of it), and
`isResume` is true exactly when the reply, lower-cased, contains the
substring "yes" anywhere; every other reply yields false. -/
theorem classifier_prompt_and_yes_detection (text reply : String) :
    classification_prompt text = CLASSIFICATION_INSTRUCTION ++ pyTakeS 1000 text ∧
    (pyTakeS 1000 text).data.length ≤ 1000 ∧
    (∃ rest, text.data = (pyTakeS 1000 text).data ++ rest) ∧
    (isResume reply = true ↔ pyIn "yes" (pyLowerS reply) = true) := by
  refine ⟨rfl, ?_, ?_, ?_⟩
  · simp [pyTakeS, List.length_take]
  · exact ⟨text.data.drop 1000, (List.take_append_drop 1000 text.data).symm⟩
  · show containsSub "yes".data ((pyStripL reply.data).map pyToLower) = true ↔
      containsSub "yes".data (reply.data.map pyToLower) = true
    exact containsSub_yes_strip_iff reply.data

example : isResume "  YES, this is a resume " = true := by decide
example : isResume "no" = false := by decide
example : isResume GENERIC_ERROR_TEXT = false := by decide
example : isResume BUSY_TEXT = false := by decide

/-! ### Quiz endpoint (`generate_quiz`, app.py lines 294-387) -/

/-- Digit-string accumulator for the integer parser. -/
def parseDigitsAux : List Char → Nat → Option Nat
  | [], acc => some acc
  | c :: rest, acc =>
    if c.isDigit then parseDigitsAux rest (acc * 10 + (c.toNat - 48))
    else none

/-- Python `int(s)` on a string: strip whitespace, optional sign, digits
(ASCII model; underscore separators are not modelled). -/
def pyIntOfString (s : String) : Option Int :=
  match pyStripL s.data with
  | [] => none
  | '-' :: rest =>
    if rest.isEmpty then none
    else (parseDigitsAux rest 0).map (fun n => -(n : Int))
  | '+' :: rest =>
    if rest.isEmpty then none
    else (parseDigitsAux rest 0).map (fun n => (n : Int))
  | l => (parseDigitsAux l 0).map (fun n => (n : Int))

/-- Python `int(count)` on a JSON value: ints pass through, bools coerce
(int(True) = 1), numeric strings parse; anything else raises
TypeError/ValueError, modelled as `none`. -/
def pyToInt : PyVal → Option Int
  | .int_ n => some n
  | .bool_ b => some (if b then 1 else 0)
  | .str_ s => pyIntOfString s
  | _ => none

example : pyToInt (.str_ " 7 ") = some 7 := by decide
example : pyToInt (.str_ "eleven") = none := by decide
example : pyToInt (.bool_ true) = some 1 := by decide
example : pyToInt .none_ = none := by decide

/-- The inner quiz prompt f-string (app.py lines 319-339). -/
def quiz_prompt (question_count : Int) (topic : String) : String :=
  "Generate exactly " ++ toString question_count ++
    " multiple choice quiz questions on the topic \"" ++ topic ++
    "\". Follow these strict rules:\n1. Each question must have:\n   - A clear question text\n   - Exactly 4 options (A, B, C, D)\n   - One correct answer (must match exactly one option)\n2. Format each question as JSON with:\n   - \"text\": The question\n   - \"options\": Array of 4 options (prefix with A), B), etc.)\n   - \"correctAnswer\": The full correct option text\n3. Return only a valid JSON array with no extra text\n\nExample:\n[\n  \x7b\n    \"text\": \"What is the capital of France?\",\n    \"options\": [\"A) London\", \"B) Paris\", \"C) Berlin\", \"D) Madrid\"],\n    \"correctAnswer\": \"B) Paris\"\n  \x7d\n]\n\nNow generate " ++
    toString question_count ++ " questions about \"" ++ topic ++ "\":"

/-- The outer quiz prompt sent to the model (app.py lines 341-343). -/
def gemini_quiz_prompt (question_count : Int) (topic : String) : String :=
  "You are a quiz generator 📝. Generate engaging quiz questions using subject-relevant emojis in the question text (e.g., 🧮 for math, 🧪 for science, 🌍 for geography, etc.). Return only valid JSON arrays with quiz questions in the exact specified format. Do not include any additional text or explanations. Format the questions with emojis where appropriate, but ensure the options remain clearly marked with A), B), C), D).\n\n" ++
    quiz_prompt question_count topic

/-- A validated quiz question. -/
structure QuizQuestion where
  text : String
  options : List String
  correctAnswer : String

/-- `jsonify` rendering of a validated question. -/
def QuizQuestion.toPy (q : QuizQuestion) : PyVal :=
  .dict_ [("text", .str_ q.text),
    ("options", .list_ (q.options.map .str_)),
    ("correctAnswer", .str_ q.correctAnswer)]

/-- Per-question exception message prefix: `f"Question {i + 1} ..."`. -/
def questionErr (i : Nat) (tail : String) : String :=
  "Question " ++ toString (i + 1) ++ tail

/-- `[opt.strip() for opt in q["options"]]`: each entry must be a string
(a non-string raises AttributeError, caught by the outer handler). -/
def stripOptions : List PyVal → Except String (List String)
  | [] => .ok []
  | .str_ s :: rest => (stripOptions rest).map (fun l => pyStripS s :: l)
  | _ :: _ => .error "AttributeError: strip"

/-- Validation of one parsed quiz element (app.py lines 361-375), 0-based
index `i`.  Note the membership test compares the RAW `correctAnswer`
against the RAW `options`; trimming happens only afterwards. -/
def validateOne (i : Nat) (q : PyVal) : Except String QuizQuestion :=
  match q with
  | .dict_ kvs =>
    match pyGet kvs "text" with
    | some (.str_ t) =>
      if !truthyStr t then .error (questionErr i " missing text")
      else
        match pyGet kvs "options" with
        | some (.list_ os) =>
          if os.length ≠ 4 then
            .error (questionErr i " must have exactly 4 options")
          else
            match pyGet kvs "correctAnswer" with
            | some (.str_ ca) =>
              if !truthyStr ca then
                .error (questionErr i " missing correctAnswer")
              else if !pyStrMem ca os then
                .error (questionErr i " correctAnswer doesn't match any option")
              else
                match stripOptions os with
                | .error e => .error e
                | .ok sos => .ok ⟨pyStripS t, sos, pyStripS ca⟩
            | _ => .error (questionErr i " missing correctAnswer")
        | _ => .error (questionErr i " must have exactly 4 options")
    | _ => .error (questionErr i " missing text")
  | _ => .error "AttributeError: get"

/-- The validation loop: all-or-nothing over the parsed array. -/
def validateQuestions (i : Nat) : List PyVal → Except String (List QuizQuestion)
  | [] => .ok []
  | q :: rest =>
    match validateOne i q with
    | .error e => .error e
    | .ok vq =>
      match validateQuestions (i + 1) rest with
      | .error e => .error e
      | .ok vqs => .ok (vq :: vqs)

/-- 400 reply for an invalid topic. -/
def INVALID_TOPIC_REPLY : HttpReply :=
  ⟨400, .dict_ [("error", .str_ "Invalid input"),
    ("message", .str_ "Please provide a valid topic for the quiz")]⟩

/-- 400 reply for an invalid count. -/
def INVALID_COUNT_REPLY : HttpReply :=
  ⟨400, .dict_ [("error", .str_ "Invalid input"),
    ("message", .str_ "Please request between 3 and 10 questions")]⟩

/-- 500 reply produced by the outer exception handler. -/
def quizErr500 (msg : String) : HttpReply :=
  ⟨500, .dict_ [("error", .str_ "Failed to generate quiz"),
    ("message", .str_ msg)]⟩

/-- The `/api/generate-quiz` handler.  `gem` stands for
`get_gemini_response`, `jsonLoads` for `json.loads` (`none` = parse error).
Returns the HTTP reply and the list of prompts sent to the model. -/
def generate_quiz (gem : String → String) (jsonLoads : String → Option PyVal)
    (topic count : PyVal) : HttpReply × List String :=
  match topic with
  | .str_ ts =>
    if !truthyStr ts || !truthyStr (pyStripS ts) then (INVALID_TOPIC_REPLY, [])
    else
      match pyToInt count with
      | none => (INVALID_COUNT_REPLY, [])
      | some question_count =>
        if question_count < 3 ∨ question_count > 10 then
          (INVALID_COUNT_REPLY, [])
        else
          let gp := gemini_quiz_prompt question_count ts
          let content := gem gp
          if !truthyStr content || pyIn "sorry" (pyLowerS content) then
            (quizErr500 "Failed to get valid response from Gemini", [gp])
          else
            let content2 :=
              pyStripS (pyReplace (pyReplace content "```json\n" "") "\n```" "")
            match jsonLoads content2 with
            | none => (quizErr500 "Failed to parse quiz data", [gp])
            | some (.list_ questions) =>
              match validateQuestions 0 questions with
              | .error e => (quizErr500 e, [gp])
              | .ok vqs =>
                if (vqs.length : Int) ≠ question_count then
                  (quizErr500 ("Expected " ++ toString question_count ++
                    " questions, got " ++ toString vqs.length), [gp])
                else
                  (⟨200, .dict_ [("questions",
                    .list_ (vqs.map QuizQuestion.toPy))]⟩, [gp])
            | some _ => (quizErr500 "Response is not a valid array", [gp])
  | _ => (INVALID_TOPIC_REPLY, [])

/-- `stripRight` is idempotent. -/
theorem stripRight_idem (p : Char → Bool) (l : List Char) :
    stripRight p (stripRight p l) = stripRight p l := by
  induction l with
  | nil => rfl
  | cons c rest ih =>
    by_cases hc : ((stripRight p rest).isEmpty && p c) = true
    · simp [stripRight, hc]
    · have hs : stripRight p (c :: rest) = c :: stripRight p rest := by
        simp only [stripRight]
        rw [if_neg (by simpa using hc)]
      rw [hs]
      simp only [stripRight]
      rw [ih]
      rw [if_neg (by simpa using hc)]

/-- `dropWhile` is idempotent. -/
theorem dropWhile_idem (p : Char → Bool) (l : List Char) :
    (l.dropWhile p).dropWhile p = l.dropWhile p := by
  induction l with
  | nil => rfl
  | cons c rest ih =>
    by_cases hc : p c = true
    · simp [List.dropWhile_cons, hc, ih]
    · simp [List.dropWhile_cons, hc]

/-- A list already left-stripped stays left-stripped after `stripRight`. -/
theorem dropWhile_stripRight_fix (p : Char → Bool) (m : List Char)
    (hm : m.dropWhile p = m) :
    (stripRight p m).dropWhile p = stripRight p m := by
  cases m with
  | nil => rfl
  | cons c rest =>
    have hc : p c = false := by
      by_contra hcc
      rw [Bool.not_eq_false] at hcc
      rw [List.dropWhile_cons, if_pos hcc] at hm
      have hle := (List.dropWhile_sublist (l := rest) p).length_le
      rw [hm] at hle
      simp at hle
    have hs : stripRight p (c :: rest) = c :: stripRight p rest := by
      simp only [stripRight]
      rw [if_neg (by simp [hc])]
    rw [hs, List.dropWhile_cons, if_neg (by simp [hc])]

/-- `str.strip()` is idempotent (list level). -/
theorem pyStripL_idem (l : List Char) : pyStripL (pyStripL l) = pyStripL l := by
  unfold pyStripL
  rw [dropWhile_stripRight_fix pyIsSpace (l.dropWhile pyIsSpace)
    (dropWhile_idem pyIsSpace l)]
  exact stripRight_idem pyIsSpace (l.dropWhile pyIsSpace)

/-- `str.strip()` is idempotent. -/
theorem pyStripS_idem (s : String) : pyStripS (pyStripS s) = pyStripS s := by
  show String.mk (pyStripL (pyStripL s.data)) = String.mk (pyStripL s.data)
  exact congrArg String.mk (pyStripL_idem s.data)

/-- Python membership of a string among string-wrapped values. -/
theorem pyStrMem_map (ca : String) (os : List String) :
    pyStrMem ca (os.map .str_) = true ↔ ca ∈ os := by
  induction os with
  | nil => simp [pyStrMem]
  | cons s rest ih =>
    simp only [List.map_cons, pyStrMem, pyEqStr, Bool.or_eq_true, beq_iff_eq,
      List.mem_cons, ih]

/-- Stripping a list of string values succeeds with the pointwise strips. -/
theorem stripOptions_map (os : List String) :
    stripOptions (os.map .str_) = .ok (os.map pyStripS) := by
  induction os with
  | nil => rfl
  | cons s rest ih => simp [stripOptions, ih, Except.map]

/-- What a successful `stripOptions` run guarantees. -/
theorem stripOptions_ok (os : List PyVal) :
    ∀ sos, stripOptions os = .ok sos →
      sos.length = os.length ∧ (∀ s ∈ sos, ∃ r, s = pyStripS r) ∧
        ∀ ca, pyStrMem ca os = true → pyStripS ca ∈ sos := by
  induction os with
  | nil =>
    intro sos h
    simp only [stripOptions] at h
    cases h
    exact ⟨rfl, by simp, by simp [pyStrMem]⟩
  | cons o rest ih =>
    intro sos h
    cases o with
    | str_ s =>
      simp only [stripOptions] at h
      cases hr : stripOptions rest with
      | error e => rw [hr] at h; simp [Except.map] at h
      | ok l =>
        rw [hr] at h
        simp only [Except.map] at h
        cases h
        obtain ⟨hlen, hall, hmem⟩ := ih l hr
        refine ⟨by simp [hlen], ?_, ?_⟩
        · intro x hx
          rcases List.mem_cons.mp hx with h1 | h1
          · exact ⟨s, h1⟩
          · exact hall x h1
        · intro ca hca
          simp only [pyStrMem, pyEqStr, Bool.or_eq_true, beq_iff_eq] at hca
          rcases hca with h1 | h1
          · rw [h1]
            exact List.mem_cons_self _ _
          · exact List.mem_cons_of_mem _ (hmem ca h1)
    | none_ => simp [stripOptions] at h
    | bool_ b => simp [stripOptions] at h
    | int_ m => simp [stripOptions] at h
    | list_ xs => simp [stripOptions] at h
    | dict_ kvs => simp [stripOptions] at h

/-- Invariants of a question in a successful quiz response: 4 options, the
(trimmed) correct answer verbatim among the (trimmed) options, and all
fields already trimmed. -/
def ValidQ (vq : QuizQuestion) : Prop :=
  vq.options.length = 4 ∧ vq.correctAnswer ∈ vq.options ∧
  pyStripS vq.text = vq.text ∧ pyStripS vq.correctAnswer = vq.correctAnswer ∧
  ∀ o ∈ vq.options, pyStripS o = o

/-- A question accepted by the per-element validator satisfies `ValidQ`. -/
theorem validateOne_ok (i : Nat) (q : PyVal) (vq : QuizQuestion)
    (h : validateOne i q = .ok vq) : ValidQ vq := by
  cases q with
  | none_ => simp [validateOne] at h
  | bool_ b => simp [validateOne] at h
  | int_ m => simp [validateOne] at h
  | str_ s => simp [validateOne] at h
  | list_ xs => simp [validateOne] at h
  | dict_ kvs =>
    simp only [validateOne] at h
    split at h <;> try simp at h
    rename_i t htext
    split at h <;> try simp at h
    rename_i ht
    split at h <;> try simp at h
    rename_i os hopts
    split at h <;> try simp at h
    rename_i hlen
    split at h <;> try simp at h
    rename_i ca hca
    split at h <;> try simp at h
    rename_i hcat
    split at h <;> try simp at h
    rename_i hmem
    split at h <;> try simp at h
    rename_i sos hsos
    have hvq : vq = ⟨pyStripS t, sos, pyStripS ca⟩ := by
      cases h
      rfl
    subst hvq
    obtain ⟨hl, hall, hm⟩ := stripOptions_ok os sos hsos
    have hmem' : pyStrMem ca os = true := by
      revert hmem
      cases pyStrMem ca os <;> simp
    refine ⟨?_, ?_, pyStripS_idem t, pyStripS_idem ca, ?_⟩
    · rw [hl]
      omega
    · exact hm ca hmem'
    · intro o ho
      obtain ⟨r, hr⟩ := hall o ho
      rw [hr]
      exact pyStripS_idem r

/-- Every question in a successful validation run satisfies `ValidQ`. -/
theorem validateQuestions_ok (qs : List PyVal) :
    ∀ i vqs, validateQuestions i qs = .ok vqs → ∀ vq ∈ vqs, ValidQ vq := by
  induction qs with
  | nil =>
    intro i vqs h
    simp only [validateQuestions] at h
    cases h
    simp
  | cons q rest ih =>
    intro i vqs h
    simp only [validateQuestions] at h
    cases h1 : validateOne i q with
    | error e => rw [h1] at h; simp at h
    | ok vq =>
      rw [h1] at h
      cases h2 : validateQuestions (i + 1) rest with
      | error e => rw [h2] at h; simp at h
      | ok vqs' =>
        rw [h2] at h
        cases h
        intro x hx
        rcases List.mem_cons.mp hx with h3 | h3
        · rw [h3]
          exact validateOne_ok i q vq h1
        · exact ih (i + 1) vqs' h2 x h3

/-- A quiz element whose correctAnswer differs from an option only by
surrounding whitespace. -/
def trimOnlyMismatchQ : PyVal :=
  .dict_ [("text", .str_ "Q"),
    ("options", .list_ [.str_ "A) a", .str_ "B) b", .str_ "C) c", .str_ "D) d"]),
    ("correctAnswer", .str_ " A) a")]

/-- Claim C4 counterexample: the trimmed correctAnswer equals a trimmed
option, yet the validator rejects the question with the per-question
mismatch failure — whitespace-only differences are NOT accepted. -/
theorem quiz_trimmed_match_rejected_counterexample :
    pyStripS " A) a" = "A) a" ∧
    pyStripS " A) a" ∈ (["A) a", "B) b", "C) c", "D) d"].map pyStripS) ∧
    validateQuestions 0 [trimOnlyMismatchQ] =
      .error "Question 1 correctAnswer doesn't match any option" :=
  ⟨by decide, by decide, rfl⟩

/-- Claim C4 (amended): for a well-formed quiz element, the validator
accepts its correctAnswer exactly when the RAW correctAnswer equals
(case-sensitively, whitespace included) one of the RAW options entries;
trimming plays no role in the membership test. -/
theorem quiz_correctAnswer_raw_membership (i : Nat) (t ca : String)
    (os : List String) (ht : truthyStr t = true) (hlen : os.length = 4)
    (hca : truthyStr ca = true) :
    (validateOne i (.dict_ [("text", .str_ t),
        ("options", .list_ (os.map .str_)),
        ("correctAnswer", .str_ ca)])).isOk = true ↔ ca ∈ os := by
  have h1 : pyGet [("text", PyVal.str_ t), ("options", .list_ (os.map .str_)),
      ("correctAnswer", .str_ ca)] "text" = some (.str_ t) := rfl
  have h2 : pyGet [("text", PyVal.str_ t), ("options", .list_ (os.map .str_)),
      ("correctAnswer", .str_ ca)] "options" = some (.list_ (os.map .str_)) :=
    rfl
  have h3 : pyGet [("text", PyVal.str_ t), ("options", .list_ (os.map .str_)),
      ("correctAnswer", .str_ ca)] "correctAnswer" = some (.str_ ca) := rfl
  have hlen' : (os.map PyVal.str_).length = 4 := by simp [hlen]
  by_cases hmem : ca ∈ os
  · have hm : pyStrMem ca (os.map .str_) = true := (pyStrMem_map ca os).mpr hmem
    simp [validateOne, h1, h2, h3, ht, hca, hlen', hm, stripOptions_map,
      Except.isOk, Except.toBool, hmem]
  · have hm : pyStrMem ca (os.map .str_) = false := by
      rcases hb : pyStrMem ca (os.map .str_)
      · rfl
      · exact absurd ((pyStrMem_map ca os).mp hb) hmem
    simp [validateOne, h1, h2, h3, ht, hca, hlen', hm, Except.isOk,
      Except.toBool, hmem]

/-- Witness for C4 (amended): concrete accepted and rejected cases. -/
theorem quiz_correctAnswer_raw_membership_witness :
    ((validateOne 0 (.dict_ [("text", .str_ "Q"),
        ("options", .list_ (["A", "B", "C", "D"].map .str_)),
        ("correctAnswer", .str_ "A")])).isOk = true ↔
      "A" ∈ ["A", "B", "C", "D"]) :=
  quiz_correctAnswer_raw_membership 0 "Q" "A" ["A", "B", "C", "D"]
    (by decide) (by decide) (by decide)

/-- Claim C7: a quiz request whose count is non-numeric (int() raises) or
out of the range [3,10] is answered 400 with an error body, and the model
client is never invoked. -/
theorem quiz_invalid_count_400_no_model_call (gem : String → String)
    (jsonLoads : String → Option PyVal) (topic count : PyVal)
    (h : pyToInt count = none ∨
      ∃ n, pyToInt count = some n ∧ (n < 3 ∨ n > 10)) :
    (generate_quiz gem jsonLoads topic count).1.status = 400 ∧
    (generate_quiz gem jsonLoads topic count).2 = [] ∧
    ∃ m, (generate_quiz gem jsonLoads topic count).1.body =
      .dict_ [("error", .str_ "Invalid input"), ("message", .str_ m)] := by
  cases topic with
  | str_ ts =>
    simp only [generate_quiz]
    by_cases htop : (!truthyStr ts || !truthyStr (pyStripS ts)) = true
    · rw [if_pos htop]
      exact ⟨rfl, rfl, _, rfl⟩
    · rw [if_neg htop]
      rcases h with h | ⟨n, hn, hrange⟩
      · rw [h]
        exact ⟨rfl, rfl, _, rfl⟩
      · rw [hn]
        simp only []
        rw [if_pos hrange]
        exact ⟨rfl, rfl, _, rfl⟩
  | none_ => exact ⟨rfl, rfl, _, rfl⟩
  | bool_ b => exact ⟨rfl, rfl, _, rfl⟩
  | int_ m => exact ⟨rfl, rfl, _, rfl⟩
  | list_ xs => exact ⟨rfl, rfl, _, rfl⟩
  | dict_ kvs => exact ⟨rfl, rfl, _, rfl⟩

/-- Witness for C7: count = 11 is rejected before any model call. -/
theorem quiz_invalid_count_400_no_model_call_witness :
    (generate_quiz (fun _ => "ok") (fun _ => none)
        (.str_ "math") (.int_ 11)).1.status = 400 ∧
    (generate_quiz (fun _ => "ok") (fun _ => none)
        (.str_ "math") (.int_ 11)).2 = [] ∧
    ∃ m, (generate_quiz (fun _ => "ok") (fun _ => none)
        (.str_ "math") (.int_ 11)).1.body =
      .dict_ [("error", .str_ "Invalid input"), ("message", .str_ m)] :=
  quiz_invalid_count_400_no_model_call _ _ _ _
    (Or.inr ⟨11, rfl, Or.inr (by norm_num)⟩)

/-- A quiz element whose text is whitespace-only (truthy raw, empty once
trimmed). -/
def blankTextQ : PyVal :=
  .dict_ [("text", .str_ " "),
    ("options", .list_ [.str_ "A", .str_ "B", .str_ "C", .str_ "D"]),
    ("correctAnswer", .str_ "A")]

/-- Claim C8 counterexample: a model output whose questions carry
whitespace-only texts passes validation, and the successful 200 response
contains questions whose trimmed `text` is the empty string — "each with a
non-empty text" fails on the response. -/
theorem quiz_success_empty_text_counterexample :
    (generate_quiz (fun _ => "ok")
        (fun _ => some (.list_ [blankTextQ, blankTextQ, blankTextQ]))
        (.str_ "math") (.int_ 3)).1 =
      ⟨200, .dict_ [("questions", .list_
        (([⟨"", ["A", "B", "C", "D"], "A"⟩, ⟨"", ["A", "B", "C", "D"], "A"⟩,
           ⟨"", ["A", "B", "C", "D"], "A"⟩] : List QuizQuestion).map
          QuizQuestion.toPy))]⟩ ∧
    (⟨"", ["A", "B", "C", "D"], "A"⟩ : QuizQuestion).text = "" :=
  ⟨rfl, rfl⟩

/-- Claim C8 (amended): whenever `int(count)` parses to `n`, a successful
(HTTP 200) quiz response consists of exactly `n` validated questions, each
with exactly 4 options and a correctAnswer present verbatim (post-trim)
among those options, all string fields trimmed (a question's text may be
empty after trimming when the raw text was whitespace-only); any non-200
reply carries only an error/message body — no partial question list. -/
theorem quiz_success_response_shape (gem : String → String)
    (jsonLoads : String → Option PyVal) (topic count : PyVal) (n : Int)
    (hn : pyToInt count = some n) :
    ((generate_quiz gem jsonLoads topic count).1.status = 200 →
      ∃ vqs : List QuizQuestion,
        (generate_quiz gem jsonLoads topic count).1.body =
          .dict_ [("questions", .list_ (vqs.map QuizQuestion.toPy))] ∧
        (vqs.length : Int) = n ∧ ∀ vq ∈ vqs, ValidQ vq) ∧
    ((generate_quiz gem jsonLoads topic count).1.status ≠ 200 →
      ∃ e m, (generate_quiz gem jsonLoads topic count).1.body =
        .dict_ [("error", .str_ e), ("message", .str_ m)]) := by
  cases topic with
  | none_ =>
    exact ⟨fun hc => by simp [generate_quiz, INVALID_TOPIC_REPLY] at hc,
      fun _ => ⟨_, _, rfl⟩⟩
  | bool_ b =>
    exact ⟨fun hc => by simp [generate_quiz, INVALID_TOPIC_REPLY] at hc,
      fun _ => ⟨_, _, rfl⟩⟩
  | int_ m =>
    exact ⟨fun hc => by simp [generate_quiz, INVALID_TOPIC_REPLY] at hc,
      fun _ => ⟨_, _, rfl⟩⟩
  | list_ xs =>
    exact ⟨fun hc => by simp [generate_quiz, INVALID_TOPIC_REPLY] at hc,
      fun _ => ⟨_, _, rfl⟩⟩
  | dict_ kvs =>
    exact ⟨fun hc => by simp [generate_quiz, INVALID_TOPIC_REPLY] at hc,
      fun _ => ⟨_, _, rfl⟩⟩
  | str_ ts =>
    simp only [generate_quiz, hn]
    by_cases h1 : (!truthyStr ts || !truthyStr (pyStripS ts)) = true
    · rw [if_pos h1]
      exact ⟨fun hc => by simp [INVALID_TOPIC_REPLY] at hc,
        fun _ => ⟨_, _, rfl⟩⟩
    · rw [if_neg h1]
      by_cases h2 : n < 3 ∨ n > 10
      · rw [if_pos h2]
        exact ⟨fun hc => by simp [INVALID_COUNT_REPLY] at hc,
          fun _ => ⟨_, _, rfl⟩⟩
      · rw [if_neg h2]
        by_cases h3 : (!truthyStr (gem (gemini_quiz_prompt n ts)) ||
            pyIn "sorry" (pyLowerS (gem (gemini_quiz_prompt n ts)))) = true
        · rw [if_pos h3]
          exact ⟨fun hc => by simp [quizErr500] at hc, fun _ => ⟨_, _, rfl⟩⟩
        · rw [if_neg h3]
          cases hj : jsonLoads (pyStripS (pyReplace
              (pyReplace (gem (gemini_quiz_prompt n ts)) "```json\n" "")
              "\n```" "")) with
          | none =>
            simp only [hj]
            exact ⟨fun hc => by simp [quizErr500] at hc, fun _ => ⟨_, _, rfl⟩⟩
          | some v =>
            cases v with
            | list_ qs =>
              simp only [hj]
              cases hv : validateQuestions 0 qs with
              | error e =>
                simp only [hv]
                exact ⟨fun hc => by simp [quizErr500] at hc,
                  fun _ => ⟨_, _, rfl⟩⟩
              | ok vqs =>
                simp only [hv]
                by_cases h4 : (vqs.length : Int) ≠ n
                · rw [if_pos h4]
                  exact ⟨fun hc => by simp [quizErr500] at hc,
                    fun _ => ⟨_, _, rfl⟩⟩
                · rw [if_neg h4]
                  push_neg at h4
                  exact ⟨fun _ => ⟨vqs, rfl, h4,
                      validateQuestions_ok qs 0 vqs hv⟩,
                    fun hc => absurd rfl hc⟩
            | none_ =>
              simp only [hj]
              exact ⟨fun hc => by simp [quizErr500] at hc,
                fun _ => ⟨_, _, rfl⟩⟩
            | bool_ b =>
              simp only [hj]
              exact ⟨fun hc => by simp [quizErr500] at hc,
                fun _ => ⟨_, _, rfl⟩⟩
            | int_ m =>
              simp only [hj]
              exact ⟨fun hc => by simp [quizErr500] at hc,
                fun _ => ⟨_, _, rfl⟩⟩
            | str_ s =>
              simp only [hj]
              exact ⟨fun hc => by simp [quizErr500] at hc,
                fun _ => ⟨_, _, rfl⟩⟩
            | dict_ kvs =>
              simp only [hj]
              exact ⟨fun hc => by simp [quizErr500] at hc,
                fun _ => ⟨_, _, rfl⟩⟩

/-- Witness for C8 (amended): a concrete successful run. -/
theorem quiz_success_response_shape_witness :
    ((generate_quiz (fun _ => "ok")
        (fun _ => some (.list_ [blankTextQ, blankTextQ, blankTextQ]))
        (.str_ "math") (.int_ 3)).1.status = 200 →
      ∃ vqs : List QuizQuestion,
        (generate_quiz (fun _ => "ok")
          (fun _ => some (.list_ [blankTextQ, blankTextQ, blankTextQ]))
          (.str_ "math") (.int_ 3)).1.body =
          .dict_ [("questions", .list_ (vqs.map QuizQuestion.toPy))] ∧
        (vqs.length : Int) = 3 ∧ ∀ vq ∈ vqs, ValidQ vq) ∧
    ((generate_quiz (fun _ => "ok")
        (fun _ => some (.list_ [blankTextQ, blankTextQ, blankTextQ]))
        (.str_ "math") (.int_ 3)).1.status ≠ 200 →
      ∃ e m, (generate_quiz (fun _ => "ok")
        (fun _ => some (.list_ [blankTextQ, blankTextQ, blankTextQ]))
        (.str_ "math") (.int_ 3)).1.body =
        .dict_ [("error", .str_ e), ("message", .str_ m)]) :=
  quiz_success_response_shape _ _ _ _ 3 rfl
